import Mathlib

/-!
Verification of `build.py` (static renderer for the CeylonRailZone site).

The script renders each `entries/<name>.html` through `data.html?id=<name>`
in a headless browser and writes the rendered DOM to `wiki/<name>.html`.
We embed its pure decision logic (path suffix/stem computation, entry
discovery, the JS readiness predicate) and model its effectful control
flow (per-entry try/except/finally, the batch loop, module-level setup)
as explicit event traces parameterised by the outcome of each external
call (navigation, waiting, capture, write).
-/

namespace Build

/-! ### Text primitives

`str.lower()` / `String.prototype.toLowerCase` and `trim()` over the
ASCII-ish strings the script manipulates, implemented over `List Char`
so that they reduce in the kernel. -/

/-- Lowercasing, as in Python `str.lower()` / JS `toLowerCase()`. -/
def lowerStr (s : String) : String :=
  String.mk (s.toList.map Char.toLower)

/-- Leading/trailing whitespace removal, as in JS `String.prototype.trim`. -/
def trimChars (cs : List Char) : List Char :=
  ((cs.dropWhile Char.isWhitespace).reverse.dropWhile Char.isWhitespace).reverse

/-- String version of `trimChars`. -/
def trimStr (s : String) : String :=
  String.mk (trimChars s.toList)

/-- Lexicographic (code-point) `≤` on character lists: the order Python's
`sorted` uses when comparing the path names of `ENTRIES_DIR.iterdir()`. -/
def lexLe : List Char → List Char → Bool
  | [], _ => true
  | _ :: _, [] => false
  | a :: as, b :: bs => if a = b then lexLe as bs else decide (a < b)

/-- Name order on strings, via `lexLe` on their character lists. -/
def nameLe (a b : String) : Prop := lexLe a.toList b.toList = true

instance : DecidableRel nameLe := fun a b => by
  unfold nameLe; infer_instance

/-! ### Python `pathlib` suffix and stem

CPython computes `PurePath.suffix`/`.stem` from the final component's
last `'.'`: the extension is `name[i:]` when `0 < i < len(name) - 1`,
otherwise empty (so `".html"` and `"foo."` have no suffix). -/

/-- Index of the last `'.'` in a character list, if any (`str.rfind('.')`). -/
def rfindDot : List Char → Option Nat
  | [] => none
  | c :: cs =>
    match rfindDot cs with
    | some i => some (i + 1)
    | none => if c = '.' then some 0 else none

/-- `pathlib.PurePath.suffix` of a file name. -/
def pySuffix (name : String) : String :=
  let cs := name.toList
  match rfindDot cs with
  | some i => if 0 < i ∧ i + 1 < cs.length then String.mk (cs.drop i) else ""
  | none => ""

/-- `pathlib.PurePath.stem` of a file name. -/
def pyStem (name : String) : String :=
  let cs := name.toList
  match rfindDot cs with
  | some i => if 0 < i ∧ i + 1 < cs.length then String.mk (cs.take i) else name
  | none => name


/-- One directory entry of `ENTRIES_DIR`, as seen by `iterdir()`:
its file name and whether it is a regular file (`is_file()`). -/
structure DirEntry where
  name : String
  isFile : Bool
deriving DecidableEq

/-- The filter of the comprehension on line 72:
`f.is_file() and f.suffix.lower() == ".html"`. -/
def htmlFilter (e : DirEntry) : Bool :=
  e.isFile && (lowerStr (pySuffix e.name) == ".html")

/-- Line 72: `sorted([f for f in ENTRIES_DIR.iterdir() if f.is_file() and
f.suffix.lower() == ".html"])` — the selected file names in sorted order. -/
def discoverEntries (files : List DirEntry) : List String :=
  List.insertionSort nameLe ((files.filter htmlFilter).map DirEntry.name)

/-! ### Readiness predicate (build.py lines 94-104)

The JS function polled by `page.wait_for_function`:

```
const el = document.getElementById('projectContent');
if (!el) return false;
const txt = (el.innerText || el.textContent || '').trim();
if (!txt) return false;
if (txt.toLowerCase().includes('loading...')) return false;
return true;
```
-/

/-- The `#projectContent` element's two text projections. -/
structure ContainerEl where
  innerText : String
  textContent : String
deriving DecidableEq

/-- Live page state as far as the readiness predicate reads it:
the `#projectContent` element, if present. -/
structure PageState where
  container : Option ContainerEl
deriving DecidableEq

/-- JS `a || b` on strings: the empty string is falsy. -/
def jsOr (a b : String) : String := if a = "" then b else a

/-- The "still loading" sentinel searched for in the lowercased text. -/
def loadingSentinel : String := "loading..."

/-- `(el.innerText || el.textContent || '').trim()`. -/
def elText (el : ContainerEl) : String :=
  trimStr (jsOr (jsOr el.innerText el.textContent) "")

/-- The readiness predicate of lines 95-102, translated clause by clause. -/
def readyPredicate (ps : PageState) : Bool :=
  match ps.container with
  | none => false
  | some el =>
    let txt := elText el
    if txt = "" then false
    else if decide (loadingSentinel.toList <:+: (lowerStr txt).toList) then false
    else true

/-! ### Per-entry processing (build.py lines 78-117)

Each loop iteration performs external calls whose outcomes the script
cannot control; we parameterise an entry by those outcomes.  The body is:

```
page = context.new_page()                 # line 84, OUTSIDE the try
page.on("console", ...)                   # line 87
try:
    page.goto(src_url, ...)               # line 90
    try:
        page.wait_for_function(...)       # lines 94-104
    except PlaywrightTimeoutError:
        print("Warning: timed out ...")   # line 106
    rendered_html = page.content()        # line 108
    out_path.write_text(rendered_html)    # line 110
except Exception as e:
    print("Failed to render ...")         # line 114
finally:
    page.close()                          # line 117
```
-/

/-- Outcome of `page.wait_for_function` (lines 94-104): the predicate
became true in time, a `PlaywrightTimeoutError` was raised (caught by the
inner handler, line 105), or some other exception was raised. -/
inductive WaitOutcome
  | ready
  | timedOut
  | raised
deriving DecidableEq

/-- Outcome of each external call made while processing one entry.
A `false`/`raised` component means that call raised an exception. -/
structure EntryBehavior where
  newPageOk : Bool
  gotoOk : Bool
  wait : WaitOutcome
  captureOk : Bool
  writeOk : Bool
deriving DecidableEq

/-- Observable side effects of one entry, in order.  `id` is the entry's
logical identifier (`entry.stem`); `wroteFile` carries the output file
name (`entry.name`, written under `WIKI_DIR`). -/
inductive Event
  | pageOpened (id : String)
  | warned (id : String)
  | wroteFile (fileName : String)
  | loggedError (id : String)
  | pageClosed (id : String)
deriving DecidableEq

/-- What processing one entry produced: the output file written under
`WIKI_DIR` (if any), whether the timeout warning was printed, whether the
outer `except` handler logged a failure, the ordered side-effect trace,
and whether an exception escaped the iteration. -/
structure EntryResult where
  written : Option String
  warned : Bool
  errorLogged : Bool
  trace : List Event
  propagated : Bool
deriving DecidableEq

/-- Lines 108-110 (`page.content()` then `out_path.write_text(...)`),
reached after the wait step: returns the file written, whether the outer
handler ran, and the events, for the rest of the `try` body. -/
def captureWrite (fn : String) (id : String) (b : EntryBehavior) :
    Option String × Bool × List Event :=
  if b.captureOk = false then (none, true, [.loggedError id])
  else if b.writeOk = false then (none, true, [.loggedError id])
  else (some fn, false, [.wroteFile fn])

/-- One iteration of the `for entry in entries` loop (lines 78-117) on the
entry with file name `fn`.  `context.new_page()` sits outside the
`try`, so its failure propagates; the `finally` closes the page on every
path on which it was opened. -/
def processEntry (fn : String) (b : EntryBehavior) : EntryResult :=
  let id := pyStem fn
  if b.newPageOk = false then
    { written := none, warned := false, errorLogged := false,
      trace := [], propagated := true }
  else if b.gotoOk = false then
    { written := none, warned := false, errorLogged := true,
      trace := [.pageOpened id, .loggedError id, .pageClosed id], propagated := false }
  else
    match b.wait with
    | .raised =>
      { written := none, warned := false, errorLogged := true,
        trace := [.pageOpened id, .loggedError id, .pageClosed id], propagated := false }
    | .ready =>
      let r := captureWrite fn id b
      { written := r.1, warned := false, errorLogged := r.2.1,
        trace := .pageOpened id :: r.2.2 ++ [.pageClosed id], propagated := false }
    | .timedOut =>
      let r := captureWrite fn id b
      { written := r.1, warned := true, errorLogged := r.2.1,
        trace := .pageOpened id :: .warned id :: r.2.2 ++ [.pageClosed id],
        propagated := false }

/-- True when an exception was raised inside the `try` body — during
navigation, waiting (other than the caught timeout), capture, or write —
and was caught by the outer handler. -/
def entryRaised (b : EntryBehavior) : Bool :=
  !b.gotoOk || (b.wait == .raised) || !b.captureOk || !b.writeOk

/-- Result of running the batch loop over a list of entries. -/
structure BatchResult where
  results : List (String × EntryResult)
  trace : List Event
  propagated : Bool
deriving DecidableEq

/-- The `for entry in entries` loop: entries are processed one after the
other in list order; a Python `for` loop stops as soon as an iteration
lets an exception escape. -/
def runEntries : List (String × EntryBehavior) → BatchResult
  | [] => ⟨[], [], false⟩
  | (fn, b) :: rest =>
    let r := processEntry fn b
    if r.propagated then ⟨[(fn, r)], r.trace, true⟩
    else
      let br := runEntries rest
      ⟨(fn, r) :: br.results, r.trace ++ br.trace, br.propagated⟩

/-! ### Whole-program run (build.py lines 29-31 and 52-121) -/

/-- The parts of the file system the script inspects up front:
whether `ENTRIES_DIR` exists, whether it is a directory, and its
directory listing. -/
structure FS where
  entriesDirExists : Bool
  entriesDirIsDir : Bool
  entriesDirFiles : List DirEntry

/-- Top-level observable steps of a run, in order. -/
inductive TopEvent
  | checkedEntriesDir
  | abortedRun
  | createdWikiDir
  | startedServer
  | launchedBrowser
  | discoveredEntries (names : List String)
  | reportedNothing
  | entry (e : Event)
  | closedBrowser
  | doneMsg
  | crashed
deriving DecidableEq

/-- A whole run of the script, as its ordered top-level event trace:
module level, lines 29-31 — the `ENTRIES_DIR` existence/directory guard
(`raise SystemExit` on failure) and then `WIKI_DIR.mkdir(parents=True,
exist_ok=True)`; then `render_all()` — the HTTP server thread (lines
57-58), browser launch (line 66), entry discovery (line 72), the
empty-case early return (lines 73-76), the batch loop, `browser.close()`
(line 119) and the final message (line 121).  An exception escaping the
loop skips lines 119-121 and crashes the run. -/
def runProgram (fs : FS) (behav : String → EntryBehavior) : List TopEvent :=
  if fs.entriesDirExists && fs.entriesDirIsDir then
    let names := discoverEntries fs.entriesDirFiles
    let pre : List TopEvent :=
      [.checkedEntriesDir, .createdWikiDir, .startedServer, .launchedBrowser,
       .discoveredEntries names]
    if names.isEmpty then pre ++ [.reportedNothing, .closedBrowser]
    else
      let br := runEntries (names.map (fun fn => (fn, behav fn)))
      if br.propagated then pre ++ br.trace.map TopEvent.entry ++ [.crashed]
      else pre ++ br.trace.map TopEvent.entry ++ [.closedBrowser, .doneMsg]
  else [.checkedEntriesDir, .abortedRun]

/-- Concrete behaviors used as evaluation points in witnesses below. -/
def allOkB : EntryBehavior :=
  { newPageOk := true, gotoOk := true, wait := .ready, captureOk := true, writeOk := true }

/-- All calls succeed except that the readiness wait times out. -/
def timeoutB : EntryBehavior :=
  { newPageOk := true, gotoOk := true, wait := .timedOut, captureOk := true, writeOk := true }

/-- `context.new_page()` raises; every later call would succeed. -/
def noSessionB : EntryBehavior :=
  { newPageOk := false, gotoOk := true, wait := .ready, captureOk := true, writeOk := true }

/-- Navigation (`page.goto`) raises. -/
def navFailB : EntryBehavior :=
  { newPageOk := true, gotoOk := false, wait := .ready, captureOk := true, writeOk := true }

/-! ## Supporting lemmas -/

theorem lexLe_total (cs ds : List Char) : lexLe cs ds = true ∨ lexLe ds cs = true := by
  induction cs generalizing ds with
  | nil => left; simp [lexLe]
  | cons a as ih =>
    cases ds with
    | nil => right; simp [lexLe]
    | cons b bs =>
      by_cases hab : a = b
      · subst hab
        simpa [lexLe] using ih bs
      · rcases lt_or_gt_of_ne hab with h | h
        · left; simp [lexLe, hab, h]
        · right; simp [lexLe, Ne.symm hab, h]

theorem lexLe_trans (cs ds es : List Char) (h1 : lexLe cs ds = true)
    (h2 : lexLe ds es = true) : lexLe cs es = true := by
  induction cs generalizing ds es with
  | nil => simp [lexLe]
  | cons a as ih =>
    cases ds with
    | nil => simp [lexLe] at h1
    | cons b bs =>
      cases es with
      | nil => simp [lexLe] at h2
      | cons c cs' =>
        simp only [lexLe] at h1 h2 ⊢
        by_cases hab : a = b <;> by_cases hbc : b = c
        · subst hab; subst hbc
          simp only [if_pos rfl] at h1 h2 ⊢
          exact ih bs cs' h1 h2
        · subst hab
          simp only [if_pos rfl] at h1
          simp only [if_neg hbc, decide_eq_true_eq] at h2
          have hac : a ≠ c := ne_of_lt h2
          simp [if_neg hac, h2]
        · subst hbc
          simp only [if_neg hab, decide_eq_true_eq] at h1
          simp [if_neg hab, h1]
        · simp only [if_neg hab, decide_eq_true_eq] at h1
          simp only [if_neg hbc, decide_eq_true_eq] at h2
          have hac : a < c := lt_trans h1 h2
          simp [if_neg (ne_of_lt hac), hac]

/-- `lexLe` is the reflexive closure of the standard lexicographic
strict order on character lists. -/
theorem lexLe_iff (cs ds : List Char) :
    lexLe cs ds = true ↔ (cs = ds ∨ List.Lex (· < ·) cs ds) := by
  induction cs generalizing ds with
  | nil =>
    cases ds with
    | nil => simp [lexLe]
    | cons b bs =>
      constructor
      · intro _
        exact Or.inr List.Lex.nil
      · intro _
        rfl
  | cons a as ih =>
    cases ds with
    | nil =>
      simp only [lexLe, Bool.false_eq_true, false_iff]
      rintro (h | h)
      · exact List.cons_ne_nil _ _ h
      · cases h
    | cons b bs =>
      by_cases hab : a = b
      · subst hab
        have hunf : lexLe (a :: as) (a :: bs) = lexLe as bs := by
          simp [lexLe]
        rw [hunf, ih]
        constructor
        · rintro (h | h)
          · exact Or.inl (by rw [h])
          · exact Or.inr (List.Lex.cons h)
        · rintro (h | h)
          · injection h with h1 h2
            exact Or.inl h2
          · cases h with
            | cons h => exact Or.inr h
            | rel h => exact absurd h (lt_irrefl a)
      · have hunf : lexLe (a :: as) (b :: bs) = decide (a < b) := by
          simp [lexLe, hab]
        rw [hunf, decide_eq_true_eq]
        constructor
        · intro h
          exact Or.inr (List.Lex.rel h)
        · rintro (h | h)
          · injection h with h1 h2
            exact absurd h1 hab
          · cases h with
            | cons h => exact absurd rfl hab
            | rel h => exact h

/-- An exception escapes an iteration exactly when `context.new_page()`
(line 84, outside the `try`) raises. -/
theorem processEntry_propagated (fn : String) (b : EntryBehavior) :
    (processEntry fn b).propagated = !b.newPageOk := by
  rcases b with ⟨np, go, w, cap, wr⟩
  cases np <;> cases go <;> cases w <;> cases cap <;> cases wr <;>
    simp [processEntry, captureWrite]

/-- When the head entry's session is acquired, the loop records its result
and then runs the remaining entries. -/
theorem runEntries_cons_ok (fn : String) (b : EntryBehavior)
    (rest : List (String × EntryBehavior)) (h : b.newPageOk = true) :
    runEntries ((fn, b) :: rest) =
      ⟨(fn, processEntry fn b) :: (runEntries rest).results,
       (processEntry fn b).trace ++ (runEntries rest).trace,
       (runEntries rest).propagated⟩ := by
  have hp : (processEntry fn b).propagated = false := by
    rw [processEntry_propagated, h]
    rfl
  simp [runEntries, hp]

/-- When every entry's session can be acquired, the batch trace is the
concatenation of the per-entry traces, in list order, and every entry is
attempted. -/
theorem runEntries_map_ok (l : List String) (behav : String → EntryBehavior)
    (h : ∀ fn ∈ l, (behav fn).newPageOk = true) :
    (runEntries (l.map fun fn => (fn, behav fn))).trace
        = (l.map fun fn => (processEntry fn (behav fn)).trace).flatten
    ∧ (runEntries (l.map fun fn => (fn, behav fn))).results.map Prod.fst = l := by
  induction l with
  | nil => simp [runEntries]
  | cons fn rest ih =>
    have hfn : (behav fn).newPageOk = true := h fn (List.mem_cons_self fn rest)
    have hrest : ∀ g ∈ rest, (behav g).newPageOk = true :=
      fun g hg => h g (List.mem_cons_of_mem fn hg)
    obtain ⟨ih1, ih2⟩ := ih hrest
    rw [List.map_cons, runEntries_cons_ok fn (behav fn) _ hfn]
    simp [ih1, ih2]

/-- Membership in the discovered list: exactly the regular files of the
listing whose lowercased `pathlib` suffix is `".html"`. -/
theorem discoverEntries_mem (files : List DirEntry) (n : String) :
    n ∈ discoverEntries files ↔
      ∃ e ∈ files, e.isFile = true ∧ lowerStr (pySuffix e.name) = ".html" ∧ e.name = n := by
  unfold discoverEntries
  rw [List.mem_insertionSort]
  simp only [List.mem_map, List.mem_filter, htmlFilter, Bool.and_eq_true, beq_iff_eq]
  constructor
  · rintro ⟨e, ⟨he, hf, hs⟩, hn⟩
    exact ⟨e, he, hf, hs, hn⟩
  · rintro ⟨e, he, hf, hs, hn⟩
    exact ⟨e, ⟨he, hf, hs⟩, hn⟩

/-- The discovered list is sorted by name (code-point order on the file
names, duplicates allowed). -/
theorem discoverEntries_pairwise (files : List DirEntry) :
    List.Pairwise (fun a b : String => a = b ∨ List.Lex (· < ·) a.toList b.toList)
      (discoverEntries files) := by
  haveI : IsTotal String nameLe := ⟨fun a b => lexLe_total a.toList b.toList⟩
  haveI : IsTrans String nameLe := ⟨fun a b c => lexLe_trans a.toList b.toList c.toList⟩
  have hs : List.Sorted nameLe (discoverEntries files) :=
    List.sorted_insertionSort nameLe _
  refine hs.imp ?_
  intro a b hab
  rcases (lexLe_iff a.toList b.toList).mp hab with h | h
  · exact Or.inl (String.ext h)
  · exact Or.inr h

/-! ## Claim theorems -/

/-- Claim C1: for every entry whose session is acquired, processing writes
the output file with the same name as the source entry exactly when no
exception is raised during navigation, waiting (other than the handled
readiness timeout), capture or write; when such an exception is raised no
output file is written for that entry; and in either case the loop
proceeds to the remaining entries, so a per-entry exception never
prevents later entries from being attempted. -/
theorem claim1_per_entry_soft_failure (fn : String) (b : EntryBehavior)
    (rest : List (String × EntryBehavior)) (h : b.newPageOk = true) :
    ((processEntry fn b).written = some fn ↔ entryRaised b = false)
    ∧ ((processEntry fn b).written = none ↔ entryRaised b = true)
    ∧ (runEntries ((fn, b) :: rest)).results
        = (fn, processEntry fn b) :: (runEntries rest).results
    ∧ (runEntries ((fn, b) :: rest)).propagated = (runEntries rest).propagated := by
  have hc := runEntries_cons_ok fn b rest h
  refine ⟨?_, ?_, by rw [hc], by rw [hc]⟩ <;>
  · rcases b with ⟨np, go, w, cap, wr⟩
    simp only [] at h
    subst h
    cases go <;> cases w <;> cases cap <;> cases wr <;>
      simp [processEntry, captureWrite, entryRaised]

/-- Witness for C1 at the all-successful behavior. -/
theorem claim1_per_entry_soft_failure_witness :
    allOkB.newPageOk = true
    ∧ (((processEntry "alpha.html" allOkB).written = some "alpha.html"
          ↔ entryRaised allOkB = false)
      ∧ ((processEntry "alpha.html" allOkB).written = none ↔ entryRaised allOkB = true)
      ∧ (runEntries (("alpha.html", allOkB) :: [])).results
          = ("alpha.html", processEntry "alpha.html" allOkB) :: (runEntries []).results
      ∧ (runEntries (("alpha.html", allOkB) :: [])).propagated
          = (runEntries []).propagated) :=
  ⟨rfl, claim1_per_entry_soft_failure "alpha.html" allOkB [] rfl⟩

/-- Claim C2: the readiness predicate is true iff the designated container
element exists, its trimmed text is non-empty, and the lowercased text
does not contain the loading sentinel as a substring; it is false in
every other case. -/
theorem claim2_readiness_predicate (ps : PageState) :
    readyPredicate ps = true ↔
      ∃ el, ps.container = some el ∧ elText el ≠ ""
        ∧ ¬ (loadingSentinel.toList <:+: (lowerStr (elText el)).toList) := by
  rcases ps with ⟨container⟩
  cases container with
  | none => simp [readyPredicate]
  | some el =>
    by_cases h1 : elText el = ""
    · simp [readyPredicate, h1]
    · by_cases h2 : loadingSentinel.toList <:+: (lowerStr (elText el)).toList
      · simp [readyPredicate, h1, h2]
      · simp [readyPredicate, h1, h2]

/-- Claim C3: when navigation succeeds and the readiness wait times out,
the entry is not failed — the warning is recorded and the current DOM is
still captured and written to the entry's output file; moreover the
timeout is the only exception path that still yields an output file: any
entry that produced an output file suffered no navigation, wait (other
than timeout), capture, or write exception. -/
theorem claim3_timeout_partial_success (fn : String) (b : EntryBehavior)
    (g : String) (c : EntryBehavior)
    (h1 : b.newPageOk = true) (h2 : b.gotoOk = true) (h3 : b.wait = WaitOutcome.timedOut)
    (h4 : b.captureOk = true) (h5 : b.writeOk = true) :
    ((processEntry fn b).warned = true
      ∧ (processEntry fn b).written = some fn
      ∧ (processEntry fn b).errorLogged = false)
    ∧ ((processEntry g c).written ≠ none →
        c.gotoOk = true ∧ c.wait ≠ WaitOutcome.raised ∧ c.captureOk = true
          ∧ c.writeOk = true) := by
  constructor
  · rcases b with ⟨np, go, w, cap, wr⟩
    simp only [] at h1 h2 h3 h4 h5
    subst h1; subst h2; subst h3; subst h4; subst h5
    simp [processEntry, captureWrite]
  · intro hw
    rcases c with ⟨np, go, w, cap, wr⟩
    cases np <;> cases go <;> cases w <;> cases cap <;> cases wr <;>
      simp_all [processEntry, captureWrite]

/-- Witness for C3 at a timing-out behavior and an all-successful one. -/
theorem claim3_timeout_partial_success_witness :
    (timeoutB.newPageOk = true ∧ timeoutB.gotoOk = true
      ∧ timeoutB.wait = WaitOutcome.timedOut ∧ timeoutB.captureOk = true
      ∧ timeoutB.writeOk = true)
    ∧ (((processEntry "alpha.html" timeoutB).warned = true
        ∧ (processEntry "alpha.html" timeoutB).written = some "alpha.html"
        ∧ (processEntry "alpha.html" timeoutB).errorLogged = false)
      ∧ ((processEntry "beta.html" allOkB).written ≠ none →
          allOkB.gotoOk = true ∧ allOkB.wait ≠ WaitOutcome.raised
            ∧ allOkB.captureOk = true ∧ allOkB.writeOk = true)) :=
  ⟨⟨rfl, rfl, rfl, rfl, rfl⟩,
   claim3_timeout_partial_success "alpha.html" timeoutB "beta.html" allOkB rfl rfl rfl rfl rfl⟩

/-- Claim C4 (counterexample): an exception while acquiring an entry's
browsing session (`context.new_page()`, line 84, outside the `try`) does
escape the batch loop: with two entries, the first of which fails session
acquisition, the exception propagates and the second entry is never
attempted — refuting the claim that only the upfront directory check can
abort the run. -/
theorem claim4_counterexample :
    (runEntries [("alpha.html", noSessionB), ("beta.html", allOkB)]).propagated = true
    ∧ (runEntries [("alpha.html", noSessionB), ("beta.html", allOkB)]).results.map Prod.fst
        = ["alpha.html"] := by
  decide

/-- Claim C4 (amended): exceptions raised inside the per-entry `try` —
navigation, waiting, capture, write — never escape an iteration, but an
exception while acquiring the entry's browsing session does: the batch
loop propagates an exception exactly when some entry's session
acquisition raises. -/
theorem claim4_amended_containment (fn : String) (b : EntryBehavior)
    (l : List (String × EntryBehavior)) :
    (processEntry fn b).propagated = !b.newPageOk
    ∧ (runEntries l).propagated = l.any (fun p => !p.2.newPageOk) := by
  refine ⟨processEntry_propagated fn b, ?_⟩
  induction l with
  | nil => simp [runEntries]
  | cons p rest ih =>
    rcases p with ⟨g, c⟩
    by_cases hc : c.newPageOk = true
    · rw [runEntries_cons_ok g c rest hc]
      simp [ih, hc]
    · simp only [Bool.not_eq_true] at hc
      have hprop : (processEntry g c).propagated = true := by
        rw [processEntry_propagated, hc]
        rfl
      simp [runEntries, hprop, hc]

/-- Claim C5: discovery returns exactly the regular files of the listing
whose extension equals `.html` case-insensitively, sorted by name, with
identifiers obtained by stripping the extension; on a directory holding
`alpha.html`, `beta.html`, `gamma.txt` exactly `alpha` and `beta` are
discovered, in that order. -/
theorem claim5_discovery_contract (files : List DirEntry) (n : String) :
    (n ∈ discoverEntries files ↔
        ∃ e ∈ files, e.isFile = true ∧ lowerStr (pySuffix e.name) = ".html" ∧ e.name = n)
    ∧ List.Pairwise (fun a b : String => a = b ∨ List.Lex (· < ·) a.toList b.toList)
        (discoverEntries files)
    ∧ discoverEntries [⟨"alpha.html", true⟩, ⟨"beta.html", true⟩, ⟨"gamma.txt", true⟩]
        = ["alpha.html", "beta.html"]
    ∧ (discoverEntries [⟨"alpha.html", true⟩, ⟨"beta.html", true⟩,
          ⟨"gamma.txt", true⟩]).map pyStem
        = ["alpha", "beta"] :=
  ⟨discoverEntries_mem files n, discoverEntries_pairwise files, by decide, by decide⟩

/-- Claim C6: entries are processed strictly sequentially in sorted-name
order: the discovered list is sorted, the batch trace is the
concatenation of the per-entry traces in exactly that order (so each
entry's side effects complete before the next entry's begin), and every
discovered entry is attempted. -/
theorem claim6_sequential_sorted (files : List DirEntry) (behav : String → EntryBehavior)
    (h : ∀ fn ∈ discoverEntries files, (behav fn).newPageOk = true) :
    List.Pairwise (fun a b : String => a = b ∨ List.Lex (· < ·) a.toList b.toList)
      (discoverEntries files)
    ∧ (runEntries ((discoverEntries files).map fun fn => (fn, behav fn))).trace
        = ((discoverEntries files).map fun fn => (processEntry fn (behav fn)).trace).flatten
    ∧ (runEntries ((discoverEntries files).map fun fn => (fn, behav fn))).results.map Prod.fst
        = discoverEntries files :=
  ⟨discoverEntries_pairwise files,
   (runEntries_map_ok (discoverEntries files) behav h).1,
   (runEntries_map_ok (discoverEntries files) behav h).2⟩

/-- Witness for C6 on a two-entry directory, all sessions acquired. -/
theorem claim6_sequential_sorted_witness :
    List.Pairwise (fun a b : String => a = b ∨ List.Lex (· < ·) a.toList b.toList)
      (discoverEntries [⟨"beta.html", true⟩, ⟨"alpha.html", true⟩])
    ∧ (runEntries ((discoverEntries [⟨"beta.html", true⟩, ⟨"alpha.html", true⟩]).map
          fun fn => (fn, (fun _ => allOkB) fn))).trace
        = ((discoverEntries [⟨"beta.html", true⟩, ⟨"alpha.html", true⟩]).map
            fun fn => (processEntry fn ((fun _ => allOkB) fn)).trace).flatten
    ∧ (runEntries ((discoverEntries [⟨"beta.html", true⟩, ⟨"alpha.html", true⟩]).map
          fun fn => (fn, (fun _ => allOkB) fn))).results.map Prod.fst
        = discoverEntries [⟨"beta.html", true⟩, ⟨"alpha.html", true⟩] :=
  claim6_sequential_sorted [⟨"beta.html", true⟩, ⟨"alpha.html", true⟩]
    (fun _ => allOkB) (fun _ _ => rfl)

/-- Claim C7: when the entries directory does not exist or is not a
directory, the run aborts immediately after the check: the output
directory is not created, the file server is not started, no entry is
discovered, and no entry is processed. -/
theorem claim7_abort_on_missing_dir (fs : FS) (behav : String → EntryBehavior)
    (h : (fs.entriesDirExists && fs.entriesDirIsDir) = false) :
    runProgram fs behav = [TopEvent.checkedEntriesDir, TopEvent.abortedRun]
    ∧ TopEvent.createdWikiDir ∉ runProgram fs behav
    ∧ TopEvent.startedServer ∉ runProgram fs behav
    ∧ (∀ ns, TopEvent.discoveredEntries ns ∉ runProgram fs behav)
    ∧ (∀ e, TopEvent.entry e ∉ runProgram fs behav) := by
  have h0 : runProgram fs behav = [TopEvent.checkedEntriesDir, TopEvent.abortedRun] := by
    simp [runProgram, h]
  refine ⟨h0, ?_, ?_, ?_, ?_⟩ <;> simp [h0]

/-- Witness for C7 at a file system whose entries directory is missing. -/
theorem claim7_abort_on_missing_dir_witness :
    ((FS.mk false true []).entriesDirExists && (FS.mk false true []).entriesDirIsDir) = false
    ∧ (runProgram (FS.mk false true []) (fun _ => allOkB)
          = [TopEvent.checkedEntriesDir, TopEvent.abortedRun]
      ∧ TopEvent.createdWikiDir ∉ runProgram (FS.mk false true []) (fun _ => allOkB)
      ∧ TopEvent.startedServer ∉ runProgram (FS.mk false true []) (fun _ => allOkB)
      ∧ (∀ ns, TopEvent.discoveredEntries ns ∉ runProgram (FS.mk false true []) (fun _ => allOkB))
      ∧ (∀ e, TopEvent.entry e ∉ runProgram (FS.mk false true []) (fun _ => allOkB))) :=
  ⟨rfl, claim7_abort_on_missing_dir (FS.mk false true []) (fun _ => allOkB) rfl⟩

/-- Claim C8: with an existing entries directory in which no `.html` file
is discovered, the run reports that there is nothing to render and
completes normally: no output file write occurs, no abort, no crash. -/
theorem claim8_zero_entries (fs : FS) (behav : String → EntryBehavior)
    (h1 : fs.entriesDirExists = true) (h2 : fs.entriesDirIsDir = true)
    (h3 : discoverEntries fs.entriesDirFiles = []) :
    runProgram fs behav
      = [TopEvent.checkedEntriesDir, TopEvent.createdWikiDir, TopEvent.startedServer,
         TopEvent.launchedBrowser, TopEvent.discoveredEntries [], TopEvent.reportedNothing,
         TopEvent.closedBrowser]
    ∧ (∀ fn, TopEvent.entry (Event.wroteFile fn) ∉ runProgram fs behav)
    ∧ TopEvent.abortedRun ∉ runProgram fs behav
    ∧ TopEvent.crashed ∉ runProgram fs behav := by
  have h0 : runProgram fs behav
      = [TopEvent.checkedEntriesDir, TopEvent.createdWikiDir, TopEvent.startedServer,
         TopEvent.launchedBrowser, TopEvent.discoveredEntries [], TopEvent.reportedNothing,
         TopEvent.closedBrowser] := by
    simp [runProgram, h1, h2, h3]
  refine ⟨h0, ?_, ?_, ?_⟩ <;> simp [h0]

/-- Witness for C8 at a directory containing only a non-`.html` file. -/
theorem claim8_zero_entries_witness :
    (FS.mk true true [⟨"gamma.txt", true⟩]).entriesDirExists = true
    ∧ (FS.mk true true [⟨"gamma.txt", true⟩]).entriesDirIsDir = true
    ∧ discoverEntries (FS.mk true true [⟨"gamma.txt", true⟩]).entriesDirFiles = []
    ∧ (runProgram (FS.mk true true [⟨"gamma.txt", true⟩]) (fun _ => allOkB)
          = [TopEvent.checkedEntriesDir, TopEvent.createdWikiDir, TopEvent.startedServer,
             TopEvent.launchedBrowser, TopEvent.discoveredEntries [],
             TopEvent.reportedNothing, TopEvent.closedBrowser]
      ∧ (∀ fn, TopEvent.entry (Event.wroteFile fn)
            ∉ runProgram (FS.mk true true [⟨"gamma.txt", true⟩]) (fun _ => allOkB))
      ∧ TopEvent.abortedRun ∉ runProgram (FS.mk true true [⟨"gamma.txt", true⟩]) (fun _ => allOkB)
      ∧ TopEvent.crashed ∉ runProgram (FS.mk true true [⟨"gamma.txt", true⟩]) (fun _ => allOkB)) :=
  ⟨rfl, rfl, by decide,
   claim8_zero_entries (FS.mk true true [⟨"gamma.txt", true⟩]) (fun _ => allOkB)
     rfl rfl (by decide)⟩

/-- Claim C9: for every entry whose session is created, the session is the
entry's first side effect and its release (`page.close()` in the
`finally`) is the entry's last side effect on every exit path — success,
timeout partial success, or caught exception — and the batch trace puts
the whole of an entry's trace before the next entry's, so the page is
closed before the next entry's session is created and never reused. -/
theorem claim9_session_released (fn : String) (b : EntryBehavior)
    (rest : List (String × EntryBehavior)) (h : b.newPageOk = true) :
    (processEntry fn b).trace.head? = some (Event.pageOpened (pyStem fn))
    ∧ (processEntry fn b).trace.getLast? = some (Event.pageClosed (pyStem fn))
    ∧ (runEntries ((fn, b) :: rest)).trace
        = (processEntry fn b).trace ++ (runEntries rest).trace := by
  have hc := runEntries_cons_ok fn b rest h
  refine ⟨?_, ?_, by rw [hc]⟩ <;>
  · rcases b with ⟨np, go, w, cap, wr⟩
    simp only [] at h
    subst h
    cases go <;> cases w <;> cases cap <;> cases wr <;> rfl

/-- Witness for C9 at the timing-out behavior. -/
theorem claim9_session_released_witness :
    timeoutB.newPageOk = true
    ∧ ((processEntry "alpha.html" timeoutB).trace.head?
          = some (Event.pageOpened (pyStem "alpha.html"))
      ∧ (processEntry "alpha.html" timeoutB).trace.getLast?
          = some (Event.pageClosed (pyStem "alpha.html"))
      ∧ (runEntries (("alpha.html", timeoutB) :: [])).trace
          = (processEntry "alpha.html" timeoutB).trace ++ (runEntries []).trace) :=
  ⟨rfl, claim9_session_released "alpha.html" timeoutB [] rfl⟩

/-- Claim C10: whenever the entries directory exists (as a directory), the
run's trace begins with the directory check followed immediately by the
creation of the output directory, then the server start, the browser
launch, and only then entry discovery — so even a run that writes no
output file has created the output directory. -/
theorem claim10_wiki_dir_created (fs : FS) (behav : String → EntryBehavior)
    (h1 : fs.entriesDirExists = true) (h2 : fs.entriesDirIsDir = true) :
    ∃ rest, runProgram fs behav
      = TopEvent.checkedEntriesDir :: TopEvent.createdWikiDir :: TopEvent.startedServer ::
        TopEvent.launchedBrowser ::
        TopEvent.discoveredEntries (discoverEntries fs.entriesDirFiles) :: rest := by
  simp only [runProgram, h1, h2, Bool.and_self, if_true]
  by_cases he : (discoverEntries fs.entriesDirFiles).isEmpty
  · simp only [he, if_true]
    exact ⟨_, rfl⟩
  · simp only [he, if_false]
    by_cases hp : (runEntries ((discoverEntries fs.entriesDirFiles).map
        fun fn => (fn, behav fn))).propagated
    · simp only [hp, if_true]
      exact ⟨_, rfl⟩
    · simp only [hp, if_false]
      exact ⟨_, rfl⟩

/-- Witness for C10 at an empty entries directory. -/
theorem claim10_wiki_dir_created_witness :
    (FS.mk true true []).entriesDirExists = true
    ∧ (FS.mk true true []).entriesDirIsDir = true
    ∧ ∃ rest, runProgram (FS.mk true true []) (fun _ => allOkB)
      = TopEvent.checkedEntriesDir :: TopEvent.createdWikiDir :: TopEvent.startedServer ::
        TopEvent.launchedBrowser ::
        TopEvent.discoveredEntries (discoverEntries (FS.mk true true []).entriesDirFiles)
          :: rest :=
  ⟨rfl, rfl, claim10_wiki_dir_created (FS.mk true true []) (fun _ => allOkB) rfl rfl⟩

end Build
